import Mathlib

/-!
Shallow embedding of the furniture customization server of this repository.
The route handlers live in src/unnamed/part_002; the relational schema with
its cascading foreign keys lives in
src/supabase/migrations/20260105123614_initial_furniture_customizer_schema.sql.
Request bodies are modeled with Option-typed fields (none encodes an absent
JSON field), and the JavaScript truthiness tests that the handlers perform
are made explicit. The external inference provider is modeled as a function
from the constructed model input to a JSON response; the Math.random seed
draw is modeled as an integer parameter supplied to each handler invocation.
-/

namespace FurnCustomizer

/-- JSON-like values, covering the shapes the inference provider can return
and the jsonb columns of the schema. -/
inductive Json where
  | str (s : String)
  | num (q : Rat)
  | bool (b : Bool)
  | null
  | arr (elems : List Json)
  | obj (fields : List (String × Json))

/-- JavaScript truthiness of an optional string request field: absent and
empty-string values are falsy. -/
def truthy : Option String → Bool
  | none => false
  | some s => !(s == "")

/-- JavaScript truthiness of a JSON value. -/
def jsTruthy : Json → Bool
  | Json.str s => !(s == "")
  | Json.num q => !(q == 0)
  | Json.bool b => b
  | Json.null => false
  | Json.arr _ => true
  | Json.obj _ => true

/-- Uppercases a string character-wise, modeling toUpperCase on the ASCII
inputs the handlers deal with. -/
def toUpperStr (s : String) : String := String.mk (s.data.map Char.toUpper)

/-- Lowercases a string character-wise, modeling toLowerCase on the ASCII
inputs the handlers deal with. -/
def toLowerStr (s : String) : String := String.mk (s.data.map Char.toLower)

/-- Boolean prefix test on character lists. -/
def hasPrefL : List Char → List Char → Bool
  | [], _ => true
  | _ :: _, [] => false
  | a :: as, b :: bs => a == b && hasPrefL as bs

/-- Models String.prototype.startsWith. -/
def startsWithStr (pre s : String) : Bool := hasPrefL pre.data s.data

/-- Property lookup on a JSON object, first binding wins (object keys are
unique in JavaScript, so this matches property access). -/
def lookupField (fields : List (String × Json)) (key : String) : Option Json :=
  (fields.find? (fun p => p.1 == key)).map (fun p => p.2)

/-- Property access that only succeeds when the value is a string, matching
the checks of the form: key in output and typeof output.key is string. -/
def stringField (fields : List (String × Json)) (key : String) : Option String :=
  match lookupField fields key with
  | some (Json.str s) => some s
  | _ => none

/-- First field value that is a string beginning with http, matching the
Object.values scan of src/unnamed/part_002 lines 432 to 434. -/
def firstHttpValue (fields : List (String × Json)) : Option String :=
  fields.findSome? (fun p =>
    match p.2 with
    | Json.str s => if startsWithStr "http" s then some s else none
    | _ => none)

/-! ## Prompt generator (src/unnamed/part_002 lines 45 to 98) -/

/-- Key-value lookup in an object literal used as a map. -/
def lookupStr (table : List (String × String)) (key : String) : Option String :=
  (table.find? (fun p => p.1 == key)).map (fun p => p.2)

/-- MATERIAL_TYPES object literal, lines 46 to 55. -/
def MATERIAL_TYPES : List (String × String) :=
  [("leather", "premium leather texture"),
   ("fabric", "high-end textile weave"),
   ("wood", "natural wood grain"),
   ("metal", "brushed metal finish"),
   ("velvet", "luxurious velvet upholstery"),
   ("linen", "natural linen fabric"),
   ("cotton", "premium cotton blend"),
   ("microfiber", "soft microfiber material")]

/-- FURNITURE_PARTS object literal, lines 57 to 67. -/
def FURNITURE_PARTS : List (String × String) :=
  [("cushion", "sofa cushion"),
   ("seat", "chair seat"),
   ("backrest", "chair backrest"),
   ("armrest", "chair armrest"),
   ("leg", "furniture leg"),
   ("table_top", "table surface"),
   ("drawer", "drawer front"),
   ("door", "cabinet door"),
   ("frame", "furniture frame")]

/-- generateInpaintingPrompt, lines 72 to 81. Unknown materials and parts
fall back to the generic phrases. -/
def generateInpaintingPrompt (furniturePart material color : String) : String :=
  let materialDesc := (lookupStr MATERIAL_TYPES material).getD "premium material"
  let partDesc := (lookupStr FURNITURE_PARTS furniturePart).getD "furniture part"
  "Photorealistic " ++ materialDesc ++ " on " ++ partDesc ++ ", " ++ color ++
    ", high-end textile weave, professional product photography, 8k resolution, maintaining original lighting and shadows, seamless material transition, no color bleeding, precise edges"

/-- Fixed hex-to-name color table inside getColorName, lines 87 to 95. -/
def colorMap : List (String × String) :=
  [("#FF0000", "red"), ("#00FF00", "green"), ("#0000FF", "blue"),
   ("#FFFF00", "yellow"), ("#FF00FF", "magenta"), ("#00FFFF", "cyan"),
   ("#000000", "black"), ("#FFFFFF", "white"), ("#808080", "gray"),
   ("#800000", "maroon"), ("#008000", "dark green"), ("#000080", "navy"),
   ("#FFA500", "orange"), ("#800080", "purple"), ("#A52A2A", "brown"),
   ("#FFC0CB", "pink"), ("#F5DEB3", "wheat"), ("#D2B48C", "tan"),
   ("#8B4513", "saddle brown"), ("#2F4F4F", "dark slate gray")]

/-- getColorName, lines 86 to 98: uppercase the hex, consult the table, and
degrade to a literal color-prefixed string on a miss. -/
def getColorName (hex : String) : String :=
  (lookupStr colorMap (toUpperStr hex)).getD ("color " ++ hex)

/-! ## Error taxonomy surfaced by the handlers -/

/-- Errors thrown inside the inference handlers: the invalid-model-output
throws of lines 436, 439 and 445 (payload attached when the source message
includes the stringified value), and the TypeError raised by indexing a
null provider output at line 324. -/
inductive ApiError where
  | invalidModelOutput (payload : Option Json)
  | typeError

/-- HTTP response shapes the handlers produce. -/
inductive ApiResponse (α : Type) where
  | badRequest (message : String)
  | notFound (message : String)
  | serverError (e : ApiError)
  | ok (body : α)

/-- Returns true exactly on a 200 response. -/
def isOk {α : Type} : ApiResponse α → Bool
  | ApiResponse.ok _ => true
  | _ => false

/-- Returns true exactly on a 404 response. -/
def isNotFound {α : Type} : ApiResponse α → Bool
  | ApiResponse.notFound _ => true
  | _ => false

/-! ## Provider output extraction of the recolor handler (lines 419 to 446) -/

/-- Object branch of the extraction, lines 426 to 437: the output field,
then the url field, then the first http-prefixed string value, else a
throw carrying the stringified payload. The original value is kept for the
payload because an empty array also reaches this branch (it is a truthy
object in JavaScript) with an empty value list. -/
def objectExtract (orig : Json) (fields : List (String × Json)) : Except ApiError Json :=
  match stringField fields "output" with
  | some s => Except.ok (Json.str s)
  | none =>
    match stringField fields "url" with
    | some s => Except.ok (Json.str s)
    | none =>
      match firstHttpValue fields with
      | some s => Except.ok (Json.str s)
      | none => Except.error (ApiError.invalidModelOutput (some orig))

/-- Extraction of lines 422 to 440: non-empty array first (its head, of any
type), then string, then object; a number, boolean or null reaches the
final else which throws without the payload. -/
def extractResultUrl : Json → Except ApiError Json
  | Json.arr (x :: _) => Except.ok x
  | Json.str s => Except.ok (Json.str s)
  | Json.arr [] => objectExtract (Json.arr []) []
  | Json.obj fields => objectExtract (Json.obj fields) fields
  | Json.num _ => Except.error (ApiError.invalidModelOutput none)
  | Json.bool _ => Except.error (ApiError.invalidModelOutput none)
  | Json.null => Except.error (ApiError.invalidModelOutput none)

/-- URL validation of lines 443 to 446: the extracted value must be a
non-empty string beginning with http, else a throw carrying the value. -/
def validateResultUrl : Json → Except ApiError String
  | Json.str s =>
    if !(s == "") && startsWithStr "http" s then Except.ok s
    else Except.error (ApiError.invalidModelOutput (some (Json.str s)))
  | v => Except.error (ApiError.invalidModelOutput (some v))

/-- Extraction followed by validation, the full result-URL pipeline of the
recolor handler. -/
def runGateway (output : Json) : Except ApiError String :=
  match extractResultUrl output with
  | Except.error e => Except.error e
  | Except.ok raw => validateResultUrl raw

/-! ## Loopback URL rewriting (lines 366 to 396) -/

/-- Environment variable treated as a truthy string: an unset or empty
REPLIT_DEV_DOMAIN behaves as absent. -/
def domainOpt : Option String → Option String
  | none => none
  | some s => if s == "" then none else some s

/-- Substring test on character lists, modeling String.prototype.includes. -/
def containsL (needle : List Char) : List Char → Bool
  | [] => hasPrefL needle []
  | c :: cs => hasPrefL needle (c :: cs) || containsL needle cs

/-- Attempts to strip the pattern from the front of a character list. -/
def matchPref : List Char → List Char → Option (List Char)
  | [], rest => some rest
  | _ :: _, [] => none
  | a :: as, b :: bs => if a == b then matchPref as bs else none

/-- Splits off a maximal run of leading digits. -/
def takeDigits : List Char → List Char × List Char
  | [] => ([], [])
  | c :: cs =>
    if c.isDigit then
      let r := takeDigits cs
      (c :: r.1, r.2)
    else ([], c :: cs)

/-- Replaces the first occurrence of the pattern followed by one or more
digits, modeling the single non-global regex replace of lines 393 to 394. -/
def replaceHostPort (pat repl : List Char) : List Char → List Char
  | [] => []
  | c :: cs =>
    match matchPref pat (c :: cs) with
    | some rest =>
      match takeDigits rest with
      | ([], _) => c :: replaceHostPort pat repl cs
      | (_ :: _, tl) => repl ++ tl
    | none => c :: replaceHostPort pat repl cs

/-- The processedImageUrl computation of lines 366 to 396: local upload and
attached-asset paths gain the public domain, Vite fs paths are mapped onto
the workspace, and loopback host-port prefixes are rewritten to the public
domain when one is configured. -/
def processImageUrl (env : Option String) (imageUrl : String) : String :=
  let step1 :=
    if startsWithStr "/uploads" imageUrl || startsWithStr "/attached_assets" imageUrl then
      match domainOpt env with
      | some d => ("https://" ++ d) ++ imageUrl
      | none => imageUrl
    else if startsWithStr "/@fs" imageUrl then
      match domainOpt env with
      | some d =>
        match (imageUrl.splitOn "/workspace/").get? 1 with
        | some wp => if wp == "" then imageUrl else (("https://" ++ d) ++ "/") ++ wp
        | none => imageUrl
      | none => imageUrl
    else imageUrl
  if containsL "localhost".data step1.data || containsL "127.0.0.1".data step1.data then
    match domainOpt env with
    | some d =>
      String.mk (replaceHostPort "http://127.0.0.1:".data ("https://" ++ d).data
        (replaceHostPort "http://localhost:".data ("https://" ++ d).data step1.data))
    | none => step1
  else step1

/-! ## POST /api/professional-recolor (lines 350 to 469) -/

/-- Request body of the recolor handler; material and furniturePart default
to fabric and cushion when absent. -/
structure RecolorRequest where
  imageUrl : Option String
  color : Option String
  material : Option String
  furniturePart : Option String

/-- Input object sent to the SDXL model, lines 405 to 413. It has exactly
these fields; in particular there is no image field, and the computed
processedImageUrl is not among them. -/
structure SdxlInput where
  prompt : String
  negative_prompt : String
  num_outputs : Rat
  scheduler : String
  num_inference_steps : Rat
  guidance_scale : Rat
  seed : Int

/-- Prompt template of line 362. -/
def recolorPrompt (req : RecolorRequest) : String :=
  getColorName (req.color.getD "") ++ " " ++ req.material.getD "fabric" ++ " " ++
    req.furniturePart.getD "cushion" ++
    ", professional furniture photography, high-end, realistic, maintaining original lighting and shadows, seamless material transition, photorealistic"

/-- The SDXL input constructed at lines 405 to 413, with the seed drawn
from Math.random passed in as a parameter. -/
def recolorInput (req : RecolorRequest) (seed : Int) : SdxlInput :=
  { prompt := recolorPrompt req
    negative_prompt := "blurry, low quality, distorted, deformed, pixelated"
    num_outputs := 1
    scheduler := "K_EULER"
    num_inference_steps := 50
    guidance_scale := (7.5 : Rat)
    seed := seed }

/-- Success body of the recolor handler, lines 450 to 460: the maskUrl
echoed back is the original request imageUrl. -/
structure RecolorSuccess where
  resultUrl : String
  maskUrl : String
  prompt : String
  partLabel : String
  settingsMaterial : String
  settingsColor : String
  settingsFurniturePart : String

/-- Builds the success body of lines 450 to 460. -/
def recolorBody (req : RecolorRequest) (resultUrl : String) : RecolorSuccess :=
  { resultUrl := resultUrl
    maskUrl := req.imageUrl.getD ""
    prompt := recolorPrompt req
    partLabel := req.furniturePart.getD "cushion"
    settingsMaterial := req.material.getD "fabric"
    settingsColor := getColorName (req.color.getD "")
    settingsFurniturePart := req.furniturePart.getD "cushion" }

/-- Outcome of one recolor request: the HTTP response together with the
provider invocation that was made, if any. -/
structure RecolorOutcome where
  response : ApiResponse RecolorSuccess
  providerCall : Option SdxlInput

/-- The /api/professional-recolor handler, lines 350 to 469. The provider
is a function from the constructed input to its JSON response; seed is the
already-floored Math.random draw of line 412. The processedImageUrl of
lines 366 to 396 is computed but does not flow into the provider input. -/
def professionalRecolor (env : Option String) (req : RecolorRequest) (seed : Int)
    (provider : SdxlInput → Json) : RecolorOutcome :=
  if truthy req.imageUrl && truthy req.color then
    let _processedImageUrl := processImageUrl env (req.imageUrl.getD "")
    match runGateway (provider (recolorInput req seed)) with
    | Except.error e => ⟨ApiResponse.serverError e, some (recolorInput req seed)⟩
    | Except.ok resultUrl => ⟨ApiResponse.ok (recolorBody req resultUrl), some (recolorInput req seed)⟩
  else ⟨ApiResponse.badRequest "Missing required parameters: imageUrl, color", none⟩

/-- Projects the result URL out of a 200 recolor response. -/
def resultUrlOf : ApiResponse RecolorSuccess → Option String
  | ApiResponse.ok b => some b.resultUrl
  | _ => none

/-! ## POST /api/inpaint-professional (lines 283 to 347) -/

/-- Request body of the inpaint handler; material, furniturePart,
promptStrength and maskBlur carry destructuring defaults. -/
structure InpaintRequest where
  imageUrl : Option String
  maskUrl : Option String
  color : Option String
  material : Option String
  furniturePart : Option String
  promptStrength : Option Rat
  maskBlur : Option Rat

/-- Input object sent to the FLUX Fill Pro model, lines 311 to 320. -/
structure FluxInput where
  image : String
  mask : String
  prompt : String
  prompt_strength : Rat
  mask_blur : Rat
  num_inference_steps : Rat
  guidance_scale : Rat
  seed : Int

/-- The FLUX input constructed at lines 311 to 320. -/
def inpaintInput (req : InpaintRequest) (seed : Int) : FluxInput :=
  { image := req.imageUrl.getD ""
    mask := req.maskUrl.getD ""
    prompt := generateInpaintingPrompt (req.furniturePart.getD "cushion")
      (req.material.getD "fabric") (getColorName (req.color.getD ""))
    prompt_strength := req.promptStrength.getD (0.5 : Rat)
    mask_blur := req.maskBlur.getD 0
    num_inference_steps := 28
    guidance_scale := (3.5 : Rat)
    seed := seed }

/-- Result extraction of line 324: a string output is used as-is, any other
output is indexed at 0 with JavaScript semantics and the request imageUrl
is the falsy fallback; indexing a null output throws a TypeError. No URL
validation is performed on this path. -/
def inpaintExtract (imageUrl : String) : Json → Except ApiError Json
  | Json.str s => Except.ok (Json.str s)
  | Json.arr [] => Except.ok (Json.str imageUrl)
  | Json.arr (x :: _) => Except.ok (if jsTruthy x then x else Json.str imageUrl)
  | Json.obj fields =>
    Except.ok (match lookupField fields "0" with
      | some v => if jsTruthy v then v else Json.str imageUrl
      | none => Json.str imageUrl)
  | Json.num _ => Except.ok (Json.str imageUrl)
  | Json.bool _ => Except.ok (Json.str imageUrl)
  | Json.null => Except.error ApiError.typeError

/-- Success body of the inpaint handler, lines 328 to 338. The resultUrl is
whatever line 324 produced, of any JSON type. -/
structure InpaintSuccess where
  resultUrl : Json
  prompt : String
  settingsPromptStrength : Rat
  settingsMaskBlur : Rat
  settingsMaterial : String
  settingsFurniturePart : String
  settingsColor : String

/-- Builds the success body of lines 328 to 338. -/
def inpaintBody (req : InpaintRequest) (resultUrl : Json) : InpaintSuccess :=
  { resultUrl := resultUrl
    prompt := generateInpaintingPrompt (req.furniturePart.getD "cushion")
      (req.material.getD "fabric") (getColorName (req.color.getD ""))
    settingsPromptStrength := req.promptStrength.getD (0.5 : Rat)
    settingsMaskBlur := req.maskBlur.getD 0
    settingsMaterial := req.material.getD "fabric"
    settingsFurniturePart := req.furniturePart.getD "cushion"
    settingsColor := getColorName (req.color.getD "") }

/-- Outcome of one inpaint request. -/
structure InpaintOutcome where
  response : ApiResponse InpaintSuccess
  providerCall : Option FluxInput

/-- The /api/inpaint-professional handler, lines 283 to 347. -/
def inpaintProfessional (req : InpaintRequest) (seed : Int)
    (provider : FluxInput → Json) : InpaintOutcome :=
  if truthy req.imageUrl && truthy req.maskUrl && truthy req.color then
    match inpaintExtract (req.imageUrl.getD "") (provider (inpaintInput req seed)) with
    | Except.error e => ⟨ApiResponse.serverError e, some (inpaintInput req seed)⟩
    | Except.ok r => ⟨ApiResponse.ok (inpaintBody req r), some (inpaintInput req seed)⟩
  else ⟨ApiResponse.badRequest "Missing required parameters: imageUrl, maskUrl, color", none⟩

/-! ## POST /api/segment-professional (lines 243 to 280) -/

/-- Request body of the segmentation handler. -/
structure SegmentRequest where
  imageUrl : Option String
  clickX : Option Rat
  clickY : Option Rat
  imageId : Option String
  autoSegment : Option Bool
  furniturePart : Option String

/-- Bounding box literal of line 255. -/
structure BBox where
  x : Rat
  y : Rat
  width : Rat
  height : Rat

/-- Success body of lines 263 to 271. -/
structure SegmentSuccess where
  maskId : Option String
  maskUrl : String
  partLabel : String
  boundingBox : BBox
  confidence : Rat
  clickX : Option Rat
  clickY : Option Rat

/-- Models the JavaScript expression x or-else default on strings. -/
def jsStrOr (x : Option String) (dflt : String) : String :=
  if truthy x then x.getD "" else dflt

/-- Models the JavaScript expression x or-else null on numbers: an absent
or zero coordinate becomes null. -/
def jsNumOrNull : Option Rat → Option Rat
  | none => none
  | some q => if q == 0 then none else some q

/-- The /api/segment-professional handler, lines 243 to 280: a placeholder
that echoes the input image URL as the mask. -/
def segmentProfessional (req : SegmentRequest) : ApiResponse SegmentSuccess :=
  if truthy req.imageUrl then
    ApiResponse.ok
      { maskId := none
        maskUrl := req.imageUrl.getD ""
        partLabel := jsStrOr req.furniturePart "furniture_part"
        boundingBox := ⟨0, 0, 0, 0⟩
        confidence := 1
        clickX := jsNumOrNull req.clickX
        clickY := jsNumOrNull req.clickY }
  else ApiResponse.badRequest "Missing required parameter: imageUrl"

/-! ## POST /api/upload (lines 25 to 37 and 105 to 134) -/

/-- ALLOWED_MIME_TYPES, line 25. -/
def ALLOWED_MIME_TYPES : List String :=
  ["image/jpeg", "image/jpg", "image/png", "image/gif", "image/webp"]

/-- Size ceiling of the multer limits option, line 29. -/
def FILE_SIZE_LIMIT : Nat := 10 * 1024 * 1024

/-- The fileFilter predicate of lines 30 to 36. -/
def fileFilterAccepts (mimetype : String) : Bool :=
  ALLOWED_MIME_TYPES.contains mimetype

/-- A parsed multipart file as multer presents it to the route. -/
structure UploadedFile where
  originalname : String
  mimetype : String
  size : Nat
  buffer : List Nat

/-- The upload directory contents: stored name paired with stored bytes. -/
structure UploadStore where
  files : List (String × List Nat)

/-- Responses of the upload route: a multer rejection (fileFilter error or
size limit), the 400 for a missing file, or the 200 body of lines
123 to 129. -/
inductive UploadResult where
  | rejected (message : String)
  | noFile
  | ok (path fullUrl filename : String) (size : Nat) (mimetype : String)

/-- Returns true exactly on a successful upload. -/
def isUploadOk : UploadResult → Bool
  | UploadResult.ok _ _ _ _ _ => true
  | _ => false

/-- Multer admission control configured at lines 27 to 37: the fileFilter
rejects any MIME type outside ALLOWED_MIME_TYPES and the limits option
rejects bodies above FILE_SIZE_LIMIT, in both cases before the route
handler runs, so nothing is written. -/
def multerAccepts (f : UploadedFile) : Option String :=
  if !(fileFilterAccepts f.mimetype) then some "Invalid file type. Only images are allowed."
  else if f.size > FILE_SIZE_LIMIT then some "File too large"
  else none

/-- Splits a reversed character list at its first dot: the characters
before the last dot of the original string (still reversed) and the
characters after it (still reversed). -/
def splitAtDotRev : List Char → Option (List Char × List Char)
  | [] => none
  | c :: cs =>
    if c == '.' then some ([], cs)
    else (splitAtDotRev cs).map (fun p => (c :: p.1, p.2))

/-- Extension extraction modeling path.extname on a bare file name: the
suffix from the last dot, empty when there is no dot or when the dot leads
the name. -/
def extname (name : String) : String :=
  match splitAtDotRev name.data.reverse with
  | none => ""
  | some (extRev, restRev) =>
    if restRev.isEmpty then "" else String.mk ('.' :: extRev.reverse)

/-- Public base URL selection of lines 118 to 120. -/
def publicDomain (env : Option String) : String :=
  match domainOpt env with
  | some d => "https://" ++ d
  | none => "http://localhost:5000"

/-- The /api/upload route, lines 105 to 134, composed with the multer
admission control; uuid is the randomUUID draw of line 112. On success the
bytes are stored under the uuid-based name and the response carries the
relative path, the full URL, and the original name, size and type. -/
def uploadHandler (env : Option String) (store : UploadStore)
    (file : Option UploadedFile) (uuid : String) : UploadResult × UploadStore :=
  match file with
  | none => (UploadResult.noFile, store)
  | some f =>
    match multerAccepts f with
    | some msg => (UploadResult.rejected msg, store)
    | none =>
      let safeFileName := uuid ++ toLowerStr (extname f.originalname)
      let imagePath := "/uploads/" ++ safeFileName
      (UploadResult.ok imagePath (publicDomain env ++ imagePath) f.originalname f.size f.mimetype,
       ⟨(safeFileName, f.buffer) :: store.files⟩)

/-! ## Project ledger and cascading delete
(handlers at src/unnamed/part_002 lines 136 to 240; foreign keys in the
supabase migration, all declared ON DELETE CASCADE) -/

/-- Row of the projects table. Timestamp columns are not modeled; no
specified claim observes them. -/
structure ProjectRow where
  id : String
  name : String
  description : Option String
  previewImageUrl : Option String

/-- Row of project_images: project_id references projects ON DELETE
CASCADE. -/
structure ProjectImageRow where
  id : String
  projectId : String
  originalImagePath : String
  mimeType : String
  width : Int
  height : Int

/-- Row of segmentation_masks: image_id references project_images
ON DELETE CASCADE. -/
structure SegmentationMaskRow where
  id : String
  imageId : String
  clickX : Option Int
  clickY : Option Int
  maskData : String
  boundingBox : Json
  partLabel : Option String
  confidence : Option Rat
  area : Option Int
  material : String
  furniturePart : String

/-- Row of color_applications: project_id and mask_id both cascade. -/
structure ColorApplicationRow where
  id : String
  projectId : String
  maskId : String
  fillHex : String
  opacity : Rat
  blendMode : String

/-- Row of professional_results: project_id and mask_id both cascade. -/
structure ProfessionalResultRow where
  id : String
  projectId : String
  maskId : String
  originalImageUrl : String
  maskUrl : String
  resultUrl : String
  prompt : String
  material : String
  furniturePart : String
  color : String
  promptStrength : Rat
  maskBlur : Int
  processingTimeMs : Option Int

/-- Row of recent_colors: the nullable project_id cascades. -/
structure RecentColorRow where
  id : String
  projectId : Option String
  hex : String
  colorCode : Option String
  colorName : Option String

/-- Row of canvas_states: the unique project_id cascades. -/
structure CanvasStateRow where
  id : String
  projectId : String
  canvasJson : Json
  zoom : Rat

/-- The relational state: one list per table. -/
structure Db where
  projects : List ProjectRow
  projectImages : List ProjectImageRow
  segmentationMasks : List SegmentationMaskRow
  colorApplications : List ColorApplicationRow
  professionalResults : List ProfessionalResultRow
  recentColors : List RecentColorRow
  canvasStates : List CanvasStateRow

/-- Ids of the images owned by a project. -/
def imageIdsOfProject (db : Db) (pid : String) : List String :=
  (db.projectImages.filter (fun r => r.projectId == pid)).map (fun r => r.id)

/-- Ids of the masks attached to any of the given images. -/
def maskIdsOfImages (db : Db) (imgIds : List String) : List String :=
  (db.segmentationMasks.filter (fun m => imgIds.contains m.imageId)).map (fun m => m.id)

/-- Postgres semantics of the DELETE issued at line 215 under the ON DELETE
CASCADE declarations of the migration: dropping a project drops its images,
the masks of those images, every color application and professional result
referencing the project or a dropped mask, its recent colors and its canvas
state. -/
def deleteProjectCascade (db : Db) (pid : String) : Db :=
  let deadImages := imageIdsOfProject db pid
  let deadMasks := maskIdsOfImages db deadImages
  { projects := db.projects.filter (fun p => !(p.id == pid))
    projectImages := db.projectImages.filter (fun r => !(r.projectId == pid))
    segmentationMasks := db.segmentationMasks.filter (fun m => !(deadImages.contains m.imageId))
    colorApplications :=
      db.colorApplications.filter (fun c => !(c.projectId == pid) && !(deadMasks.contains c.maskId))
    professionalResults :=
      db.professionalResults.filter (fun c => !(c.projectId == pid) && !(deadMasks.contains c.maskId))
    recentColors := db.recentColors.filter (fun c => !(c.projectId == some pid))
    canvasStates := db.canvasStates.filter (fun c => !(c.projectId == pid)) }

/-- Body of a 200 response of GET /api/projects/:id, lines 158 to 162. -/
structure GetProjectBody where
  project : ProjectRow
  images : List ProjectImageRow
  colorApplications : List ColorApplicationRow

/-- GET /api/projects/:id, lines 146 to 167: 404 when no row matches. -/
def getProjectHandler (db : Db) (id : String) : ApiResponse GetProjectBody :=
  match db.projects.find? (fun p => p.id == id) with
  | none => ApiResponse.notFound "Project not found"
  | some p =>
    ApiResponse.ok
      { project := p
        images := db.projectImages.filter (fun r => r.projectId == id)
        colorApplications := db.colorApplications.filter (fun c => c.projectId == id) }

/-- Modelled from the spec: the insertProjectSchema validator lives in the
shared schema module, which is not under src; per the spec data model a
project insert carries a required name and optional description and
preview image URL. A body that fails validation is modeled as none. -/
structure ProjectInsert where
  name : String
  description : Option String
  previewImageUrl : Option String

/-- Applies a validated update payload to a project row, line 190 to 196. -/
def applyInsert (p : ProjectRow) (v : ProjectInsert) : ProjectRow :=
  { p with name := v.name, description := v.description, previewImageUrl := v.previewImageUrl }

/-- PUT /api/projects/:id, lines 185 to 210: 400 when the body fails
validation, 404 when the update matches no row, else the updated row. -/
def putProjectHandler (db : Db) (id : String) (body : Option ProjectInsert) :
    ApiResponse ProjectRow × Db :=
  match body with
  | none => (ApiResponse.badRequest "Invalid project data", db)
  | some v =>
    match (db.projects.filter (fun p => p.id == id)).map (fun p => applyInsert p v) with
    | [] => (ApiResponse.notFound "Project not found", db)
    | p :: _ =>
      (ApiResponse.ok p,
       { db with projects := db.projects.map (fun q => if q.id == id then applyInsert q v else q) })

/-- DELETE /api/projects/:id, lines 212 to 221: the handler issues the
cascading delete and unconditionally responds with the confirmation
message; there is no existence check and no 404 path. -/
def deleteProjectHandler (db : Db) (id : String) : ApiResponse String × Db :=
  (ApiResponse.ok "Project deleted successfully", deleteProjectCascade db id)

/-- Referential integrity of the modeled schema: every dependent row
references a live parent row. -/
def refIntegrity (db : Db) : Prop :=
  (∀ r ∈ db.projectImages, ∃ p ∈ db.projects, p.id = r.projectId) ∧
  (∀ m ∈ db.segmentationMasks, ∃ r ∈ db.projectImages, r.id = m.imageId) ∧
  (∀ c ∈ db.colorApplications,
    (∃ p ∈ db.projects, p.id = c.projectId) ∧ ∃ m ∈ db.segmentationMasks, m.id = c.maskId) ∧
  (∀ c ∈ db.professionalResults,
    (∃ p ∈ db.projects, p.id = c.projectId) ∧ ∃ m ∈ db.segmentationMasks, m.id = c.maskId) ∧
  (∀ c ∈ db.canvasStates, ∃ p ∈ db.projects, p.id = c.projectId)

/-- Small concrete ledger used to exercise the cascade delete: two
projects, each with an image and a mask, a color application per project,
plus a professional result, a recent color and a canvas state on the
first project. -/
def sampleDb : Db :=
  { projects := [⟨"p1", "Chair", none, none⟩, ⟨"p2", "Sofa", none, none⟩]
    projectImages :=
      [⟨"i1", "p1", "/uploads/a.png", "image/png", 100, 100⟩,
       ⟨"i2", "p2", "/uploads/b.png", "image/png", 50, 50⟩]
    segmentationMasks :=
      [⟨"m1", "i1", some 1, some 2, "maskdata", Json.null, none, none, none, "fabric", "cushion"⟩,
       ⟨"m2", "i2", none, none, "maskdata2", Json.null, none, none, none, "leather", "seat"⟩]
    colorApplications :=
      [⟨"c1", "p1", "m1", "#FF0000", 1, "multiply"⟩,
       ⟨"c2", "p2", "m2", "#00FF00", 1, "multiply"⟩]
    professionalResults :=
      [⟨"r1", "p1", "m1", "http://a", "http://m", "http://r", "prompt text",
        "fabric", "cushion", "#FF0000", 1, 0, none⟩]
    recentColors := [⟨"rc1", some "p1", "#FF0000", none, none⟩]
    canvasStates := [⟨"cs1", "p1", Json.null, 1⟩] }

/-! ## Helper lemmas -/

/-- A false contains test means non-membership. -/
theorem contains_eq_false {l : List String} {x : String} (h : l.contains x = false) :
    x ∉ l := by
  intro hm
  rw [(by simpa using hm : l.contains x = true)] at h
  cases h

/-- Non-membership gives a false contains test. -/
theorem not_mem_contains {l : List String} {x : String} (h : x ∉ l) :
    l.contains x = false := by
  cases hc : l.contains x
  · rfl
  · exact absurd (by simpa using hc) h

/-- Membership in the dead-image id list of a project. -/
theorem mem_imageIdsOfProject {db : Db} {pid x : String} :
    x ∈ imageIdsOfProject db pid ↔
      ∃ r ∈ db.projectImages, r.projectId = pid ∧ r.id = x := by
  simp only [imageIdsOfProject, List.mem_map, List.mem_filter, beq_iff_eq]
  constructor
  · rintro ⟨r, ⟨hr, hpid⟩, hid⟩
    exact ⟨r, hr, hpid, hid⟩
  · rintro ⟨r, hr, hpid, hid⟩
    exact ⟨r, ⟨hr, hpid⟩, hid⟩

/-- Membership in the dead-mask id list of a set of image ids. -/
theorem mem_maskIdsOfImages {db : Db} {imgIds : List String} {x : String} :
    x ∈ maskIdsOfImages db imgIds ↔
      ∃ m ∈ db.segmentationMasks, imgIds.contains m.imageId = true ∧ m.id = x := by
  simp only [maskIdsOfImages, List.mem_map, List.mem_filter]
  constructor
  · rintro ⟨m, ⟨hm, hc⟩, hid⟩
    exact ⟨m, hm, hc, hid⟩
  · rintro ⟨m, hm, hc, hid⟩
    exact ⟨m, ⟨hm, hc⟩, hid⟩

/-- A surviving image row belongs to the old table and is not owned by the
deleted project. -/
theorem cascade_mem_images {db : Db} {pid : String} {r : ProjectImageRow}
    (hr : r ∈ (deleteProjectCascade db pid).projectImages) :
    r ∈ db.projectImages ∧ r.projectId ≠ pid := by
  have hr2 : r ∈ db.projectImages.filter (fun r => !(r.projectId == pid)) := hr
  have := List.mem_filter.mp hr2
  exact ⟨this.1, by simpa using this.2⟩

/-- A surviving mask row belongs to the old table and its image id is not
among the dead image ids. -/
theorem cascade_mem_masks {db : Db} {pid : String} {m : SegmentationMaskRow}
    (hm : m ∈ (deleteProjectCascade db pid).segmentationMasks) :
    m ∈ db.segmentationMasks ∧ (imageIdsOfProject db pid).contains m.imageId = false := by
  have hm2 : m ∈ db.segmentationMasks.filter
      (fun m => !((imageIdsOfProject db pid).contains m.imageId)) := hm
  have := List.mem_filter.mp hm2
  exact ⟨this.1, by simpa using this.2⟩

/-- A surviving color application belongs to the old table, is not owned by
the deleted project, and does not reference a dead mask. -/
theorem cascade_mem_colors {db : Db} {pid : String} {c : ColorApplicationRow}
    (hc : c ∈ (deleteProjectCascade db pid).colorApplications) :
    c ∈ db.colorApplications ∧ c.projectId ≠ pid ∧
      (maskIdsOfImages db (imageIdsOfProject db pid)).contains c.maskId = false := by
  have hc2 : c ∈ db.colorApplications.filter
      (fun c => !(c.projectId == pid) &&
        !((maskIdsOfImages db (imageIdsOfProject db pid)).contains c.maskId)) := hc
  have h2 := List.mem_filter.mp hc2
  have h3 := Bool.and_eq_true_iff.mp h2.2
  exact ⟨h2.1, by simpa using h3.1, by simpa using h3.2⟩

/-- A surviving professional result belongs to the old table, is not owned
by the deleted project, and does not reference a dead mask. -/
theorem cascade_mem_results {db : Db} {pid : String} {c : ProfessionalResultRow}
    (hc : c ∈ (deleteProjectCascade db pid).professionalResults) :
    c ∈ db.professionalResults ∧ c.projectId ≠ pid ∧
      (maskIdsOfImages db (imageIdsOfProject db pid)).contains c.maskId = false := by
  have hc2 : c ∈ db.professionalResults.filter
      (fun c => !(c.projectId == pid) &&
        !((maskIdsOfImages db (imageIdsOfProject db pid)).contains c.maskId)) := hc
  have h2 := List.mem_filter.mp hc2
  have h3 := Bool.and_eq_true_iff.mp h2.2
  exact ⟨h2.1, by simpa using h3.1, by simpa using h3.2⟩

/-- An image id outside the dead-image list belongs to no image of the
deleted project. -/
theorem not_dead_image {db : Db} {pid x : String}
    (h : (imageIdsOfProject db pid).contains x = false) :
    ∀ r ∈ db.projectImages, r.id = x → r.projectId ≠ pid := by
  intro r hr hid hpid
  exact contains_eq_false h (mem_imageIdsOfProject.mpr ⟨r, hr, hpid, hid⟩)

/-- A mask id outside the dead-mask list belongs to no mask whose image id
is dead. -/
theorem not_dead_mask {db : Db} {pid y : String}
    (h : (maskIdsOfImages db (imageIdsOfProject db pid)).contains y = false) :
    ∀ m ∈ db.segmentationMasks, m.id = y →
      (imageIdsOfProject db pid).contains m.imageId = false := by
  intro m hm hid
  cases hc : (imageIdsOfProject db pid).contains m.imageId
  · rfl
  · exact absurd (mem_maskIdsOfImages.mpr ⟨m, hm, hc, hid⟩) (contains_eq_false h)

/-- A project row that survives the delete. -/
theorem cascade_keep_project {db : Db} {pid : String} {p : ProjectRow}
    (hp : p ∈ db.projects) (hne : p.id ≠ pid) :
    p ∈ (deleteProjectCascade db pid).projects := by
  show p ∈ db.projects.filter (fun p => !(p.id == pid))
  exact List.mem_filter.mpr ⟨hp, by simpa using hne⟩

/-- An image row that survives the delete. -/
theorem cascade_keep_image {db : Db} {pid : String} {r : ProjectImageRow}
    (hr : r ∈ db.projectImages) (hne : r.projectId ≠ pid) :
    r ∈ (deleteProjectCascade db pid).projectImages := by
  show r ∈ db.projectImages.filter (fun r => !(r.projectId == pid))
  exact List.mem_filter.mpr ⟨hr, by simpa using hne⟩

/-- A mask row that survives the delete. -/
theorem cascade_keep_mask {db : Db} {pid : String} {m : SegmentationMaskRow}
    (hm : m ∈ db.segmentationMasks)
    (hne : (imageIdsOfProject db pid).contains m.imageId = false) :
    m ∈ (deleteProjectCascade db pid).segmentationMasks := by
  show m ∈ db.segmentationMasks.filter
    (fun m => !((imageIdsOfProject db pid).contains m.imageId))
  exact List.mem_filter.mpr ⟨hm, by simpa using hne⟩

/-- A value accepted by the URL validation is a non-empty http-prefixed
string. -/
theorem validateResultUrl_ok {raw : Json} {u : String}
    (h : validateResultUrl raw = Except.ok u) :
    startsWithStr "http" u = true ∧ u ≠ "" := by
  cases raw <;> simp only [validateResultUrl] at h
  case str s =>
    split at h
    · rename_i hc
      obtain ⟨h1, h2⟩ := Bool.and_eq_true_iff.mp hc
      cases h
      exact ⟨h2, by simpa using h1⟩
    · cases h
  all_goals cases h

/-- A URL produced by the extraction-validation pipeline is a non-empty
http-prefixed string. -/
theorem runGateway_ok {o : Json} {u : String} (h : runGateway o = Except.ok u) :
    startsWithStr "http" u = true ∧ u ≠ "" := by
  unfold runGateway at h
  cases he : extractResultUrl o <;> rw [he] at h
  · cases h
  · exact validateResultUrl_ok h

/-- A 200 recolor response comes from a successful gateway run and carries
its URL in the body built from the request. -/
theorem recolor_response_ok {env : Option String} {req : RecolorRequest} {seed : Int}
    {provider : SdxlInput → Json} {body : RecolorSuccess}
    (h : (professionalRecolor env req seed provider).response = ApiResponse.ok body) :
    ∃ u, runGateway (provider (recolorInput req seed)) = Except.ok u ∧
      body = recolorBody req u := by
  unfold professionalRecolor at h
  by_cases hc : (truthy req.imageUrl && truthy req.color) = true
  · rw [if_pos hc] at h
    cases hg : runGateway (provider (recolorInput req seed)) <;>
      simp only [hg] at h
    · cases h
    · rename_i u
      exact ⟨u, rfl, (ApiResponse.ok.inj h).symm⟩
  · rw [if_neg hc] at h
    cases h

/-- When both required recolor fields are truthy, the provider is invoked
on exactly the constructed SDXL input. -/
theorem recolor_providerCall (env : Option String) (req : RecolorRequest) (seed : Int)
    (provider : SdxlInput → Json)
    (h1 : truthy req.imageUrl = true) (h2 : truthy req.color = true) :
    (professionalRecolor env req seed provider).providerCall = some (recolorInput req seed) := by
  unfold professionalRecolor
  rw [if_pos (by rw [h1, h2]; rfl)]
  cases hg : runGateway (provider (recolorInput req seed)) <;> simp [hg]

/-- When the three required inpaint fields are truthy, the provider is
invoked on exactly the constructed FLUX input. -/
theorem inpaint_providerCall (req : InpaintRequest) (seed : Int)
    (provider : FluxInput → Json)
    (h1 : truthy req.imageUrl = true) (h2 : truthy req.maskUrl = true)
    (h3 : truthy req.color = true) :
    (inpaintProfessional req seed provider).providerCall = some (inpaintInput req seed) := by
  unfold inpaintProfessional
  rw [if_pos (by rw [h1, h2, h3]; rfl)]
  cases hg : inpaintExtract (req.imageUrl.getD "") (provider (inpaintInput req seed)) <;>
    simp [hg]

/-! ## Claim theorems -/

/-- C3: a professional-recolor request missing imageUrl or color, and an
inpaint-professional request missing imageUrl, maskUrl or color, receive a
400 BadRequest and no provider call is made. -/
theorem missing_params_rejected_before_provider_call :
    (∀ (env : Option String) (req : RecolorRequest) (seed : Int) (provider : SdxlInput → Json),
      req.imageUrl = none ∨ req.color = none →
      professionalRecolor env req seed provider =
        ⟨ApiResponse.badRequest "Missing required parameters: imageUrl, color", none⟩) ∧
    (∀ (req : InpaintRequest) (seed : Int) (provider : FluxInput → Json),
      req.imageUrl = none ∨ req.maskUrl = none ∨ req.color = none →
      inpaintProfessional req seed provider =
        ⟨ApiResponse.badRequest "Missing required parameters: imageUrl, maskUrl, color", none⟩) := by
  constructor
  · intro env req seed provider h
    rcases h with h | h <;> simp [professionalRecolor, truthy, h]
  · intro req seed provider h
    rcases h with h | h | h <;> simp [inpaintProfessional, truthy, h]

/-- Closed instance of C3 at concrete requests with a missing color and a
missing maskUrl. -/
theorem missing_params_rejected_before_provider_call_witness :
    professionalRecolor none ⟨some "http://x/a.png", none, none, none⟩ 7 (fun _ => Json.null) =
      ⟨ApiResponse.badRequest "Missing required parameters: imageUrl, color", none⟩ ∧
    inpaintProfessional ⟨some "http://x/a.png", none, some "#FF0000", none, none, none, none⟩ 7
        (fun _ => Json.null) =
      ⟨ApiResponse.badRequest "Missing required parameters: imageUrl, maskUrl, color", none⟩ :=
  ⟨missing_params_rejected_before_provider_call.1 none _ 7 _ (Or.inr rfl),
   missing_params_rejected_before_provider_call.2 _ 7 _ (Or.inr (Or.inl rfl))⟩

/-- C4 (amended): a segment-professional request whose imageUrl is present
and non-empty receives a 200 echoing the input image URL as the mask,
together with maskId, partLabel, boundingBox, confidence, clickX and
clickY; an absent imageUrl receives a 400. A present but empty imageUrl is
falsy and also receives a 400, which is the correction. -/
theorem segment_echoes_image_as_mask :
    (∀ (req : SegmentRequest) (s : String), req.imageUrl = some s → s ≠ "" →
      segmentProfessional req = ApiResponse.ok
        { maskId := none
          maskUrl := s
          partLabel := jsStrOr req.furniturePart "furniture_part"
          boundingBox := ⟨0, 0, 0, 0⟩
          confidence := 1
          clickX := jsNumOrNull req.clickX
          clickY := jsNumOrNull req.clickY }) ∧
    (∀ req : SegmentRequest, req.imageUrl = none →
      segmentProfessional req = ApiResponse.badRequest "Missing required parameter: imageUrl") := by
  constructor
  · intro req s hs hne
    simp [segmentProfessional, truthy, hs, hne]
  · intro req h
    simp [segmentProfessional, truthy, h]

/-- Closed instance of C4 at a concrete request with click coordinates. -/
theorem segment_echoes_image_as_mask_witness :
    segmentProfessional ⟨some "http://x/sofa.png", some 10, some 20, none, none, some "seat"⟩ =
      ApiResponse.ok
        { maskId := none
          maskUrl := "http://x/sofa.png"
          partLabel := "seat"
          boundingBox := ⟨0, 0, 0, 0⟩
          confidence := 1
          clickX := some 10
          clickY := some 20 } := by
  have h := segment_echoes_image_as_mask.1
    ⟨some "http://x/sofa.png", some 10, some 20, none, none, some "seat"⟩
    "http://x/sofa.png" rfl (by decide)
  rw [h]
  rfl

/-- C4 counterexample: with imageUrl present but equal to the empty string
the handler answers 400, not 200, because the check is a truthiness test
rather than a presence test. -/
theorem segment_present_empty_imageurl_counterexample :
    segmentProfessional ⟨some "", none, none, none, none, none⟩ =
      ApiResponse.badRequest "Missing required parameter: imageUrl" ∧
    isOk (segmentProfessional ⟨some "", none, none, none, none, none⟩) = false :=
  ⟨rfl, rfl⟩

/-- C5: the prompt generator is a pure total function; an unknown material
degrades to the phrase premium material, an unknown furniture part to the
phrase furniture part, and a hex value outside the color table degrades to
the literal color-prefixed string. -/
theorem prompt_generator_deterministic_fallbacks :
    (∀ p m c : String, generateInpaintingPrompt p m c = generateInpaintingPrompt p m c) ∧
    (∀ p m c : String, lookupStr MATERIAL_TYPES m = none →
      generateInpaintingPrompt p m c =
        "Photorealistic " ++ "premium material" ++ " on " ++
          ((lookupStr FURNITURE_PARTS p).getD "furniture part") ++ ", " ++ c ++
          ", high-end textile weave, professional product photography, 8k resolution, maintaining original lighting and shadows, seamless material transition, no color bleeding, precise edges") ∧
    (∀ p m c : String, lookupStr FURNITURE_PARTS p = none →
      generateInpaintingPrompt p m c =
        "Photorealistic " ++ ((lookupStr MATERIAL_TYPES m).getD "premium material") ++ " on " ++
          "furniture part" ++ ", " ++ c ++
          ", high-end textile weave, professional product photography, 8k resolution, maintaining original lighting and shadows, seamless material transition, no color bleeding, precise edges") ∧
    (∀ hex : String, lookupStr colorMap (toUpperStr hex) = none →
      getColorName hex = "color " ++ hex) := by
  refine ⟨fun p m c => rfl, ?_, ?_, ?_⟩
  · intro p m c h
    unfold generateInpaintingPrompt
    rw [h]
    rfl
  · intro p m c h
    unfold generateInpaintingPrompt
    rw [h]
    rfl
  · intro hex h
    unfold getColorName
    rw [h]
    rfl

/-- Closed instance of C5: an unknown material, an unknown part and an
unlisted hex value all degrade without failing, and the documented example
call is reproducible. -/
theorem prompt_generator_deterministic_fallbacks_witness :
    generateInpaintingPrompt "cushion" "leather" "red" =
      generateInpaintingPrompt "cushion" "leather" "red" ∧
    generateInpaintingPrompt "cushion" "vinyl" "red" =
      "Photorealistic " ++ "premium material" ++ " on " ++
        ((lookupStr FURNITURE_PARTS "cushion").getD "furniture part") ++ ", " ++ "red" ++
        ", high-end textile weave, professional product photography, 8k resolution, maintaining original lighting and shadows, seamless material transition, no color bleeding, precise edges" ∧
    generateInpaintingPrompt "wing" "leather" "red" =
      "Photorealistic " ++ ((lookupStr MATERIAL_TYPES "leather").getD "premium material") ++
        " on " ++ "furniture part" ++ ", " ++ "red" ++
        ", high-end textile weave, professional product photography, 8k resolution, maintaining original lighting and shadows, seamless material transition, no color bleeding, precise edges" ∧
    getColorName "#123456" = "color " ++ "#123456" :=
  ⟨prompt_generator_deterministic_fallbacks.1 "cushion" "leather" "red",
   prompt_generator_deterministic_fallbacks.2.1 "cushion" "vinyl" "red" (by decide),
   prompt_generator_deterministic_fallbacks.2.2.1 "wing" "leather" "red" (by decide),
   prompt_generator_deterministic_fallbacks.2.2.2 "#123456" (by decide)⟩

/-- C9: for every valid request to either inference handler there are two
in-range seed draws under which the provider inputs of the two runs differ,
so the provider input is not a function of the request body alone. -/
theorem provider_input_not_idempotent_in_request :
    (∀ (env : Option String) (req : RecolorRequest) (provider : SdxlInput → Json),
      truthy req.imageUrl = true → truthy req.color = true →
      ∃ s1 s2 : Int, 0 ≤ s1 ∧ s1 < 1000000 ∧ 0 ≤ s2 ∧ s2 < 1000000 ∧
        (professionalRecolor env req s1 provider).providerCall ≠
          (professionalRecolor env req s2 provider).providerCall) ∧
    (∀ (req : InpaintRequest) (provider : FluxInput → Json),
      truthy req.imageUrl = true → truthy req.maskUrl = true → truthy req.color = true →
      ∃ s1 s2 : Int, 0 ≤ s1 ∧ s1 < 1000000 ∧ 0 ≤ s2 ∧ s2 < 1000000 ∧
        (inpaintProfessional req s1 provider).providerCall ≠
          (inpaintProfessional req s2 provider).providerCall) := by
  constructor
  · intro env req provider h1 h2
    refine ⟨0, 1, by norm_num, by norm_num, by norm_num, by norm_num, ?_⟩
    rw [recolor_providerCall env req 0 provider h1 h2,
        recolor_providerCall env req 1 provider h1 h2]
    simp [recolorInput]
  · intro req provider h1 h2 h3
    refine ⟨0, 1, by norm_num, by norm_num, by norm_num, by norm_num, ?_⟩
    rw [inpaint_providerCall req 0 provider h1 h2 h3,
        inpaint_providerCall req 1 provider h1 h2 h3]
    simp [inpaintInput]

/-- Closed instance of C9 at concrete valid requests. -/
theorem provider_input_not_idempotent_in_request_witness :
    (∃ s1 s2 : Int, 0 ≤ s1 ∧ s1 < 1000000 ∧ 0 ≤ s2 ∧ s2 < 1000000 ∧
      (professionalRecolor none ⟨some "http://x/a.png", some "#FF0000", none, none⟩ s1
          (fun _ => Json.null)).providerCall ≠
        (professionalRecolor none ⟨some "http://x/a.png", some "#FF0000", none, none⟩ s2
          (fun _ => Json.null)).providerCall) ∧
    (∃ s1 s2 : Int, 0 ≤ s1 ∧ s1 < 1000000 ∧ 0 ≤ s2 ∧ s2 < 1000000 ∧
      (inpaintProfessional
          ⟨some "http://x/a.png", some "http://x/m.png", some "#FF0000", none, none, none, none⟩
          s1 (fun _ => Json.null)).providerCall ≠
        (inpaintProfessional
          ⟨some "http://x/a.png", some "http://x/m.png", some "#FF0000", none, none, none, none⟩
          s2 (fun _ => Json.null)).providerCall) :=
  ⟨provider_input_not_idempotent_in_request.1 none _ _ (by decide) (by decide),
   provider_input_not_idempotent_in_request.2 _ _ (by decide) (by decide) (by decide)⟩

/-- C10: the SDXL input of the recolor handler has no image field: the
provider is called on exactly the recolorInput record, whose fields are the
prompt, the negative prompt and fixed sampler settings plus the seed; two
valid requests that differ only in imageUrl produce identical provider
inputs under the same seed; and the maskUrl of every 200 response is the
original request imageUrl. -/
theorem recolor_provider_input_has_no_image :
    (∀ (env : Option String) (req : RecolorRequest) (seed : Int) (provider : SdxlInput → Json),
      truthy req.imageUrl = true → truthy req.color = true →
      (professionalRecolor env req seed provider).providerCall = some (recolorInput req seed)) ∧
    (∀ (req1 req2 : RecolorRequest) (seed : Int),
      req1.color = req2.color → req1.material = req2.material →
      req1.furniturePart = req2.furniturePart →
      recolorInput req1 seed = recolorInput req2 seed) ∧
    (∀ (env : Option String) (req : RecolorRequest) (seed : Int) (provider : SdxlInput → Json)
        (body : RecolorSuccess),
      (professionalRecolor env req seed provider).response = ApiResponse.ok body →
      body.maskUrl = req.imageUrl.getD "") := by
  refine ⟨recolor_providerCall, ?_, ?_⟩
  · intro req1 req2 seed hc hm hf
    simp [recolorInput, recolorPrompt, hc, hm, hf]
  · intro env req seed provider body h
    obtain ⟨u, _, hb⟩ := recolor_response_ok h
    rw [hb]
    rfl

/-- Closed instance of C10: two requests sharing color, material and part
but with different image URLs produce the same provider input, and the
provider call carries no image field while the response maskUrl echoes the
input image. -/
theorem recolor_provider_input_has_no_image_witness :
    (professionalRecolor none ⟨some "http://x/a.png", some "#FF0000", none, none⟩ 5
        (fun _ => Json.str "http://r/out.png")).providerCall =
      some (recolorInput ⟨some "http://x/a.png", some "#FF0000", none, none⟩ 5) ∧
    recolorInput ⟨some "http://x/a.png", some "#FF0000", none, none⟩ 5 =
      recolorInput ⟨some "http://y/b.png", some "#FF0000", none, none⟩ 5 ∧
    (recolorBody ⟨some "http://x/a.png", some "#FF0000", none, none⟩ "http://r/out.png").maskUrl =
      "http://x/a.png" := by
  refine ⟨recolor_provider_input_has_no_image.1 none _ 5 _ (by decide) (by decide), ?_, ?_⟩
  · exact recolor_provider_input_has_no_image.2.1 _ _ 5 rfl rfl rfl
  · have h := recolor_provider_input_has_no_image.2.2 none
      ⟨some "http://x/a.png", some "#FF0000", none, none⟩ 5
      (fun _ => Json.str "http://r/out.png")
      (recolorBody ⟨some "http://x/a.png", some "#FF0000", none, none⟩ "http://r/out.png")
      (by rfl)
    exact h

/-- C1 (amended): the recolor extraction is deterministic with the
precedence string as-is, head of a non-empty list, object output field,
object url field, first http-prefixed field value; an object with no match
fails with InvalidModelOutput carrying the raw payload, while a response
that is neither string nor array nor object (for example a bare number)
fails with the same class but without the payload, which is the
correction. The three documented example responses all yield the example
URL through the handler. -/
theorem recolor_extraction_precedence :
    (∀ s, extractResultUrl (Json.str s) = Except.ok (Json.str s)) ∧
    (∀ x xs, extractResultUrl (Json.arr (x :: xs)) = Except.ok x) ∧
    (∀ fs s, stringField fs "output" = some s →
      extractResultUrl (Json.obj fs) = Except.ok (Json.str s)) ∧
    (∀ fs s, stringField fs "output" = none → stringField fs "url" = some s →
      extractResultUrl (Json.obj fs) = Except.ok (Json.str s)) ∧
    (∀ fs s, stringField fs "output" = none → stringField fs "url" = none →
      firstHttpValue fs = some s →
      extractResultUrl (Json.obj fs) = Except.ok (Json.str s)) ∧
    (∀ fs, stringField fs "output" = none → stringField fs "url" = none →
      firstHttpValue fs = none →
      extractResultUrl (Json.obj fs) =
        Except.error (ApiError.invalidModelOutput (some (Json.obj fs)))) ∧
    (∀ q, extractResultUrl (Json.num q) = Except.error (ApiError.invalidModelOutput none)) ∧
    resultUrlOf (professionalRecolor none ⟨some "http://x/in.png", some "#FF0000", none, none⟩ 0
      (fun _ => Json.str "http://x/img.png")).response = some "http://x/img.png" ∧
    resultUrlOf (professionalRecolor none ⟨some "http://x/in.png", some "#FF0000", none, none⟩ 0
      (fun _ => Json.arr [Json.str "http://x/img.png"])).response = some "http://x/img.png" ∧
    resultUrlOf (professionalRecolor none ⟨some "http://x/in.png", some "#FF0000", none, none⟩ 0
      (fun _ => Json.obj [("output", Json.str "http://x/img.png")])).response =
      some "http://x/img.png" ∧
    (professionalRecolor none ⟨some "http://x/in.png", some "#FF0000", none, none⟩ 0
      (fun _ => Json.obj [("foo", Json.num 1)])).response =
      ApiResponse.serverError (ApiError.invalidModelOutput (some (Json.obj [("foo", Json.num 1)]))) := by
  refine ⟨fun s => rfl, fun x xs => rfl, ?_, ?_, ?_, ?_, fun q => rfl, rfl, rfl, rfl, rfl⟩
  · intro fs s h
    show objectExtract (Json.obj fs) fs = Except.ok (Json.str s)
    unfold objectExtract
    rw [h]
  · intro fs s h1 h2
    show objectExtract (Json.obj fs) fs = Except.ok (Json.str s)
    unfold objectExtract
    rw [h1, h2]
  · intro fs s h1 h2 h3
    show objectExtract (Json.obj fs) fs = Except.ok (Json.str s)
    unfold objectExtract
    rw [h1, h2, h3]
  · intro fs h1 h2 h3
    show objectExtract (Json.obj fs) fs =
      Except.error (ApiError.invalidModelOutput (some (Json.obj fs)))
    unfold objectExtract
    rw [h1, h2, h3]

/-- Closed instance of C1: an object with a non-string output field and no
url field falls through to the http-prefixed value scan. -/
theorem recolor_extraction_precedence_witness :
    extractResultUrl (Json.obj [("output", Json.num 2), ("detail", Json.str "done"),
        ("image", Json.str "http://u/a.png")]) = Except.ok (Json.str "http://u/a.png") :=
  recolor_extraction_precedence.2.2.2.2.1
    [("output", Json.num 2), ("detail", Json.str "done"), ("image", Json.str "http://u/a.png")]
    "http://u/a.png" (by decide) (by decide) (by decide)

/-- C1 counterexample: a bare numeric provider response reaches the final
else of line 439, whose error does not carry the raw payload, while the
claim requires the payload on every no-match failure. -/
theorem recolor_extraction_payload_counterexample :
    extractResultUrl (Json.num 1) = Except.error (ApiError.invalidModelOutput none) ∧
    extractResultUrl (Json.num 1) ≠
      Except.error (ApiError.invalidModelOutput (some (Json.num 1))) := by
  refine ⟨rfl, ?_⟩
  intro h
  simp only [extractResultUrl, Except.error.injEq, ApiError.invalidModelOutput.injEq] at h
  cases h

/-- C2 (amended): every 200 of the recolor handler carries a non-empty
http-prefixed result URL, enforced by the validation of lines 443 to 446;
the inpaint handler performs no such validation and returns the extracted
provider string unchecked, which is the correction. -/
theorem recolor_validates_result_url :
    (∀ (env : Option String) (req : RecolorRequest) (seed : Int)
        (provider : SdxlInput → Json) (body : RecolorSuccess),
      (professionalRecolor env req seed provider).response = ApiResponse.ok body →
      startsWithStr "http" body.resultUrl = true ∧ body.resultUrl ≠ "") ∧
    (∀ (req : InpaintRequest) (seed : Int) (s : String),
      truthy req.imageUrl = true → truthy req.maskUrl = true → truthy req.color = true →
      (inpaintProfessional req seed (fun _ => Json.str s)).response =
        ApiResponse.ok (inpaintBody req (Json.str s))) := by
  constructor
  · intro env req seed provider body h
    obtain ⟨u, hg, hb⟩ := recolor_response_ok h
    subst hb
    exact runGateway_ok hg
  · intro req seed s h1 h2 h3
    unfold inpaintProfessional
    rw [if_pos (by rw [h1, h2, h3]; rfl)]
    rfl

/-- Closed instance of C2: a successful recolor run carries an http URL
and the inpaint handler passes a provider string straight through. -/
theorem recolor_validates_result_url_witness :
    (startsWithStr "http"
      (recolorBody ⟨some "http://x/a.png", some "#FF0000", none, none⟩
        "http://r/out.png").resultUrl = true ∧
      (recolorBody ⟨some "http://x/a.png", some "#FF0000", none, none⟩
        "http://r/out.png").resultUrl ≠ "") ∧
    (inpaintProfessional
        ⟨some "http://x/a.png", some "http://x/m.png", some "#FF0000", none, none, none, none⟩ 0
        (fun _ => Json.str "http://y/b.png")).response =
      ApiResponse.ok (inpaintBody
        ⟨some "http://x/a.png", some "http://x/m.png", some "#FF0000", none, none, none, none⟩
        (Json.str "http://y/b.png")) :=
  ⟨recolor_validates_result_url.1 none ⟨some "http://x/a.png", some "#FF0000", none, none⟩ 0
      (fun _ => Json.str "http://r/out.png")
      (recolorBody ⟨some "http://x/a.png", some "#FF0000", none, none⟩ "http://r/out.png")
      (by rfl),
   recolor_validates_result_url.2
      ⟨some "http://x/a.png", some "http://x/m.png", some "#FF0000", none, none, none, none⟩ 0
      "http://y/b.png" (by decide) (by decide) (by decide)⟩

/-- C2 counterexample: the inpaint handler returns 200 with a relative,
non-http result URL when the provider answers with one, because line 324
performs no URL validation. -/
theorem inpaint_unvalidated_url_counterexample :
    (inpaintProfessional
        ⟨some "http://x/in.png", some "http://x/mask.png", some "#FF0000",
         none, none, none, none⟩ 0 (fun _ => Json.str "relative/img.png")).response =
      ApiResponse.ok (inpaintBody
        ⟨some "http://x/in.png", some "http://x/mask.png", some "#FF0000",
         none, none, none, none⟩ (Json.str "relative/img.png")) ∧
    (inpaintBody
        ⟨some "http://x/in.png", some "http://x/mask.png", some "#FF0000",
         none, none, none, none⟩ (Json.str "relative/img.png")).resultUrl =
      Json.str "relative/img.png" ∧
    startsWithStr "http" "relative/img.png" = false :=
  ⟨rfl, rfl, rfl⟩

/-- C6: an upload with a MIME type outside the allowed image set, or with
a size above the 10 MiB ceiling, is rejected and nothing is written to the
store; an allowed type within the ceiling succeeds, persists the bytes
under the fresh uuid-based name, and returns the path, full URL, original
filename, size and MIME type. -/
theorem upload_policy_enforced :
    (∀ (env : Option String) (store : UploadStore) (f : UploadedFile) (uuid : String),
      fileFilterAccepts f.mimetype = false →
      uploadHandler env store (some f) uuid =
        (UploadResult.rejected "Invalid file type. Only images are allowed.", store)) ∧
    (∀ (env : Option String) (store : UploadStore) (f : UploadedFile) (uuid : String),
      f.size > FILE_SIZE_LIMIT →
      (uploadHandler env store (some f) uuid).2 = store ∧
      isUploadOk (uploadHandler env store (some f) uuid).1 = false) ∧
    (∀ (env : Option String) (store : UploadStore) (f : UploadedFile) (uuid : String),
      fileFilterAccepts f.mimetype = true → f.size ≤ FILE_SIZE_LIMIT →
      (uuid ++ toLowerStr (extname f.originalname)) ∉ store.files.map Prod.fst →
      uploadHandler env store (some f) uuid =
        (UploadResult.ok ("/uploads/" ++ (uuid ++ toLowerStr (extname f.originalname)))
          (publicDomain env ++ ("/uploads/" ++ (uuid ++ toLowerStr (extname f.originalname))))
          f.originalname f.size f.mimetype,
         ⟨(uuid ++ toLowerStr (extname f.originalname), f.buffer) :: store.files⟩) ∧
      (uuid ++ toLowerStr (extname f.originalname)) ∉ store.files.map Prod.fst) := by
  refine ⟨?_, ?_, ?_⟩
  · intro env store f uuid h
    simp [uploadHandler, multerAccepts, h]
  · intro env store f uuid h
    cases hf : fileFilterAccepts f.mimetype <;>
      simp [uploadHandler, multerAccepts, isUploadOk, hf, h]
  · intro env store f uuid h1 h2 h3
    have hle : ¬ (f.size > FILE_SIZE_LIMIT) := by omega
    exact ⟨by simp [uploadHandler, multerAccepts, h1, hle], h3⟩

/-- Closed instance of C6: a rejected text upload leaves the empty store
untouched, and a small PNG upload is stored under the uuid-based name. -/
theorem upload_policy_enforced_witness :
    uploadHandler none ⟨[]⟩ (some ⟨"a.txt", "text/plain", 3, [0, 1, 2]⟩) "u2" =
      (UploadResult.rejected "Invalid file type. Only images are allowed.", ⟨[]⟩) ∧
    uploadHandler none ⟨[]⟩ (some ⟨"a.PNG", "image/png", 3, [1, 2, 3]⟩) "u1" =
      (UploadResult.ok ("/uploads/" ++ ("u1" ++ toLowerStr (extname "a.PNG")))
        (publicDomain none ++ ("/uploads/" ++ ("u1" ++ toLowerStr (extname "a.PNG"))))
        "a.PNG" 3 "image/png",
       ⟨[("u1" ++ toLowerStr (extname "a.PNG"), [1, 2, 3])]⟩) :=
  ⟨upload_policy_enforced.1 none ⟨[]⟩ ⟨"a.txt", "text/plain", 3, [0, 1, 2]⟩ "u2" (by decide),
   (upload_policy_enforced.2.2 none ⟨[]⟩ ⟨"a.PNG", "image/png", 3, [1, 2, 3]⟩ "u1"
      (by decide) (by decide) (by decide)).1⟩

/-- C8 (amended): GET and a validation-passing PUT answer 404 NotFound for
an id with no matching project row; DELETE answers the success
confirmation regardless of existence, which is the correction. -/
theorem ledger_missing_id_not_found (db : Db) (id : String) (v : ProjectInsert)
    (h : ∀ p ∈ db.projects, p.id ≠ id) :
    getProjectHandler db id = ApiResponse.notFound "Project not found" ∧
    (putProjectHandler db id (some v)).1 = ApiResponse.notFound "Project not found" ∧
    (deleteProjectHandler db id).1 = ApiResponse.ok "Project deleted successfully" := by
  refine ⟨?_, ?_, rfl⟩
  · have hf : db.projects.find? (fun p => p.id == id) = none :=
      List.find?_eq_none.mpr (fun p hp => by simpa using h p hp)
    unfold getProjectHandler
    rw [hf]
  · have hfil : db.projects.filter (fun p => p.id == id) = [] :=
      List.filter_eq_nil_iff.mpr (fun p hp => by simpa using h p hp)
    unfold putProjectHandler
    rw [hfil]
    rfl

/-- Closed instance of C8 on a one-project ledger and an unknown id. -/
theorem ledger_missing_id_not_found_witness :
    getProjectHandler ⟨[⟨"p1", "Chair", none, none⟩], [], [], [], [], [], []⟩ "zz" =
      ApiResponse.notFound "Project not found" ∧
    (putProjectHandler ⟨[⟨"p1", "Chair", none, none⟩], [], [], [], [], [], []⟩ "zz"
      (some ⟨"New", none, none⟩)).1 = ApiResponse.notFound "Project not found" ∧
    (deleteProjectHandler ⟨[⟨"p1", "Chair", none, none⟩], [], [], [], [], [], []⟩ "zz").1 =
      ApiResponse.ok "Project deleted successfully" :=
  ledger_missing_id_not_found ⟨[⟨"p1", "Chair", none, none⟩], [], [], [], [], [], []⟩ "zz"
    ⟨"New", none, none⟩ (by decide)

/-- C8 counterexample: DELETE on an id with no matching row (here an empty
ledger) answers the 200 confirmation, not 404: the handler at lines 212 to
221 has no existence check. -/
theorem delete_missing_project_counterexample :
    (deleteProjectHandler ⟨[], [], [], [], [], [], []⟩ "missing").1 =
      ApiResponse.ok "Project deleted successfully" ∧
    isNotFound (deleteProjectHandler ⟨[], [], [], [], [], [], []⟩ "missing").1 = false ∧
    (⟨[], [], [], [], [], [], []⟩ : Db).projects.find? (fun p => p.id == "missing") = none :=
  ⟨rfl, rfl, rfl⟩

/-- C7: the cascading delete removes every image of the project, every
mask of those images, every color application and professional result
referencing the project or such a mask, and the canvas state of the
project; referential integrity is preserved, so no dependent row
references a dead parent, and a subsequent GET of the project answers 404
NotFound. -/
theorem delete_project_cascades (db : Db) (pid : String) (h : refIntegrity db) :
    refIntegrity (deleteProjectCascade db pid) ∧
    (∀ r ∈ (deleteProjectCascade db pid).projectImages, r.projectId ≠ pid) ∧
    (∀ m ∈ (deleteProjectCascade db pid).segmentationMasks,
      ∀ r ∈ db.projectImages, r.id = m.imageId → r.projectId ≠ pid) ∧
    (∀ c ∈ (deleteProjectCascade db pid).colorApplications,
      c.projectId ≠ pid ∧
      ∀ m ∈ db.segmentationMasks, m.id = c.maskId →
        ∀ r ∈ db.projectImages, r.id = m.imageId → r.projectId ≠ pid) ∧
    (∀ c ∈ (deleteProjectCascade db pid).professionalResults,
      c.projectId ≠ pid ∧
      ∀ m ∈ db.segmentationMasks, m.id = c.maskId →
        ∀ r ∈ db.projectImages, r.id = m.imageId → r.projectId ≠ pid) ∧
    (∀ c ∈ (deleteProjectCascade db pid).canvasStates, c.projectId ≠ pid) ∧
    getProjectHandler (deleteProjectCascade db pid) pid =
      ApiResponse.notFound "Project not found" := by
  obtain ⟨hImg, hMask, hCol, hRes, hCanvas⟩ := h
  refine ⟨⟨?_, ?_, ?_, ?_, ?_⟩, ?_, ?_, ?_, ?_, ?_, ?_⟩
  · -- integrity of images: the parent project survives
    intro r hr
    obtain ⟨hmem, hne⟩ := cascade_mem_images hr
    obtain ⟨p, hp, hpid⟩ := hImg r hmem
    exact ⟨p, cascade_keep_project hp (hpid ▸ hne), hpid⟩
  · -- integrity of masks: the parent image survives
    intro m hm
    obtain ⟨hmem, hc⟩ := cascade_mem_masks hm
    obtain ⟨r, hr, hrid⟩ := hMask m hmem
    exact ⟨r, cascade_keep_image hr (not_dead_image hc r hr hrid), hrid⟩
  · -- integrity of color applications: both parents survive
    intro c hc
    obtain ⟨hmem, hne, hcm⟩ := cascade_mem_colors hc
    obtain ⟨⟨p, hp, hpid⟩, ⟨m, hm, hmid⟩⟩ := hCol c hmem
    refine ⟨⟨p, cascade_keep_project hp (hpid ▸ hne), hpid⟩,
      ⟨m, cascade_keep_mask hm (not_dead_mask hcm m hm hmid), hmid⟩⟩
  · -- integrity of professional results: both parents survive
    intro c hc
    obtain ⟨hmem, hne, hcm⟩ := cascade_mem_results hc
    obtain ⟨⟨p, hp, hpid⟩, ⟨m, hm, hmid⟩⟩ := hRes c hmem
    refine ⟨⟨p, cascade_keep_project hp (hpid ▸ hne), hpid⟩,
      ⟨m, cascade_keep_mask hm (not_dead_mask hcm m hm hmid), hmid⟩⟩
  · -- integrity of canvas states: the parent project survives
    intro c hc
    have hc2 : c ∈ db.canvasStates.filter (fun c => !(c.projectId == pid)) := hc
    obtain ⟨hmem, hne⟩ := List.mem_filter.mp hc2
    obtain ⟨p, hp, hpid⟩ := hCanvas c hmem
    exact ⟨p, cascade_keep_project hp (by rw [hpid]; simpa using hne), hpid⟩
  · -- no surviving image is owned by the deleted project
    intro r hr
    exact (cascade_mem_images hr).2
  · -- no surviving mask hangs off an image of the deleted project
    intro m hm
    exact not_dead_image (cascade_mem_masks hm).2
  · -- no surviving color application references the project or its masks
    intro c hc
    obtain ⟨_, hne, hcm⟩ := cascade_mem_colors hc
    exact ⟨hne, fun m hm hmid => not_dead_image (not_dead_mask hcm m hm hmid)⟩
  · -- no surviving professional result references the project or its masks
    intro c hc
    obtain ⟨_, hne, hcm⟩ := cascade_mem_results hc
    exact ⟨hne, fun m hm hmid => not_dead_image (not_dead_mask hcm m hm hmid)⟩
  · -- no surviving canvas state is owned by the deleted project
    intro c hc
    have hc2 : c ∈ db.canvasStates.filter (fun c => !(c.projectId == pid)) := hc
    simpa using (List.mem_filter.mp hc2).2
  · -- GET after the delete answers 404
    have hfind : (deleteProjectCascade db pid).projects.find? (fun p => p.id == pid) = none := by
      apply List.find?_eq_none.mpr
      intro p hp
      have hp2 : p ∈ db.projects.filter (fun p => !(p.id == pid)) := hp
      simpa using (List.mem_filter.mp hp2).2
    unfold getProjectHandler
    rw [hfind]

/-- Closed instance of C7 on the sample ledger: integrity holds before,
and after deleting the first project its fetch answers 404. -/
theorem delete_project_cascades_witness :
    refIntegrity sampleDb ∧
    getProjectHandler (deleteProjectCascade sampleDb "p1") "p1" =
      ApiResponse.notFound "Project not found" :=
  ⟨by unfold refIntegrity; decide,
   (delete_project_cascades sampleDb "p1" (by unfold refIntegrity; decide)).2.2.2.2.2.2⟩

end FurnCustomizer
